import Mathlib

/-!
Verification development for the smartstock multi-agent inventory system.

The definitions below are a shallow embedding of the Python sources:
  app/agents/store_agent.py, app/agents/warehouse_agent.py,
  app/models/order.py, app/models/transaction.py,
  app/services/optimization/inventory.py.

Modelling conventions:
  * Python ints are `Int`; Python floats are `ℚ` where the code only does
    exact arithmetic (priority scores) and `ℝ` where it uses sqrt/exp
    (the inventory optimizer).
  * The database session is modelled transactionally: a message handler
    either commits (its writes become the new state) or aborts with an
    error/exception (the state is unchanged).  Uncommitted session writes
    made before an uncaught exception are discarded, since the handler
    never reaches `commit` and the agent loop only logs the exception.
  * `uuid.uuid4()` is modelled by an explicit stream `fresh : ℕ → String`
    of identifiers supplied by the caller; timestamps and row ids are not
    modelled (no claim mentions them).
  * Python attribute/key lookups on the enum classes of app/models are
    modelled by total functions returning `Option`, with `none` for a
    lookup that raises (AttributeError / KeyError) — the member lists are
    taken verbatim from app/models/transaction.py and app/models/order.py.
  * Python dicts (insertion ordered) are association lists.
-/

namespace SmartStock

/-- TransactionType, from app/models/transaction.py (PURCHASE, SALE,
ADJUSTMENT, TRANSFER, RETURN — there is no DELIVERY and no ORDER member). -/
inductive TransactionType where
  | PURCHASE
  | SALE
  | ADJUSTMENT
  | TRANSFER
  | RETURN
deriving DecidableEq, Repr

/-- Python attribute access `TransactionType.<name>`: `none` models the
AttributeError raised for a missing member. -/
def transactionTypeAttr (s : String) : Option TransactionType :=
  if s == "PURCHASE" then some .PURCHASE
  else if s == "SALE" then some .SALE
  else if s == "ADJUSTMENT" then some .ADJUSTMENT
  else if s == "TRANSFER" then some .TRANSFER
  else if s == "RETURN" then some .RETURN
  else none

/-- OrderStatus, from app/models/order.py (PENDING, CONFIRMED, SHIPPED,
DELIVERED, CANCELED — note the single L; there is no PROCESSING,
READY_FOR_PICKUP or CANCELLED member). -/
inductive OrderStatus where
  | PENDING
  | CONFIRMED
  | SHIPPED
  | DELIVERED
  | CANCELED
deriving DecidableEq, Repr

/-- Python item access `OrderStatus[name]`: `none` models the KeyError
raised for a missing member name. -/
def orderStatusItem (s : String) : Option OrderStatus :=
  if s == "PENDING" then some .PENDING
  else if s == "CONFIRMED" then some .CONFIRMED
  else if s == "SHIPPED" then some .SHIPPED
  else if s == "DELIVERED" then some .DELIVERED
  else if s == "CANCELED" then some .CANCELED
  else none

/-- A sale / supply line item (`{"product_id": ..., "quantity": ...}`). -/
structure Item where
  product_id : String := ""
  quantity : Int := 0
deriving DecidableEq, Repr

/-- The union of the content fields used by the modelled message types
(section 6 of the spec); absent keys are `none`. -/
structure Content where
  transaction_id : Option String := none
  items : List Item := []
  customer_id : Option String := none
  product_id : Option String := none
  quantity : Option Int := none
  update_type : Option String := none
  reason : Option String := none
  request_id : Option String := none
  transfer_id : Option String := none
  order_id : Option String := none
  status : Option String := none
  store_id : Option String := none
  priority : Option String := none
  warehouse_id : Option String := none
  available_quantity : Option Int := none
  requested_quantity : Option Int := none
deriving DecidableEq, Repr

/-- A message-bus envelope. -/
structure Envelope where
  sender : String := ""
  recipient : String := ""
  message_type : String := ""
  content : Content := {}
deriving DecidableEq, Repr

/-- Python truthiness of an optional string (`None` and `""` are falsy). -/
def truthyS (o : Option String) : Bool :=
  match o with
  | none => false
  | some s => !(s == "")

/-- Python `str(x)` on an optional string (`str(None) = "None"`), used when
a possibly-missing field is interpolated into an agent id. -/
def pyStr (o : Option String) : String :=
  match o with
  | none => "None"
  | some s => s

/-- Association-list lookup (Python `d.get(k)` / `k in d`). -/
def alookup {α : Type} (k : String) : List (String × α) → Option α
  | [] => none
  | (k', v) :: rest => if k' == k then some v else alookup k rest

/-- Association-list write `d[k] = v`: overwrite in place, else append —
matching Python dict insertion order. -/
def aset {α : Type} (k : String) (v : α) : List (String × α) → List (String × α)
  | [] => [(k, v)]
  | (k', v') :: rest => if k' == k then (k', v) :: rest else (k', v') :: aset k v rest

/-- Association-list delete `del d[k]`. -/
def adel {α : Type} (k : String) : List (String × α) → List (String × α)
  | [] => []
  | (k', v') :: rest => if k' == k then rest else (k', v') :: adel k rest

/-- A row of the append-only transaction ledger (app/models/transaction.py);
the generated uuid primary key and the timestamp are not modelled. -/
structure LedgerEntry where
  product_id : String
  quantity_change : Int
  ttype : TransactionType
  reason : String
  location_id : String
  reference_id : String
deriving DecidableEq, Repr

/-- Product rows (app/models/product.py), fields used by the agents. -/
structure Product where
  unit_price : ℚ
  minimum_stock : Int := 0
  maximum_stock : Int := 0
deriving DecidableEq, Repr

/-- Order line items (app/models/order_item.py). -/
structure OrderItemRec where
  order_id : String
  product_id : String
  quantity : Int
deriving DecidableEq, Repr

/-- The persisted database: inventory keyed by (product_id, location_id),
products and orders keyed by id, order items and the ledger as lists. -/
structure DB where
  inv : String → String → Option Int
  products : String → Option Product
  orders : String → Option OrderStatus
  orderItems : List OrderItemRec
  ledger : List LedgerEntry

/-- A pending sale transaction held by the store agent. -/
structure PendingTx where
  items : List Item
  status : String
deriving DecidableEq, Repr

/-- A pending replenishment request held by the store agent.  Entries are
only ever created by `request_replenishment`, which always sets
`retry_count`, so the field is total here (the source's
`"retry_count" not in request` test is then simply `retry_count < 3`). -/
structure Replenishment where
  product_id : String
  quantity : Int
  priority : String
  status : String
  retry_count : Nat
  reference_id : Option String
  failure_reason : String := ""
deriving DecidableEq, Repr

/-- A pending transfer held by the warehouse agent. -/
structure Transfer where
  product_id : String
  store_id : String
  requested_quantity : Int
  available_quantity : Int
  priority : String
  status : String
  reason : String := ""
deriving DecidableEq, Repr

/-- A pending supplier order held by the warehouse agent. -/
structure SupplierOrder where
  product_id : String
  quantity : Option Int
  store_id : Option String
  status : String
deriving DecidableEq, Repr

/-- The store agent's in-memory state. -/
structure StoreAgentState where
  pendingTransactions : List (String × PendingTx) := []
  pendingReplenishments : List (String × Replenishment) := []

/-- The warehouse agent's in-memory state. -/
structure WhAgentState where
  pendingTransfers : List (String × Transfer) := []
  transferPriorities : List (String × ℚ) := []
  pendingOrders : List (String × SupplierOrder) := []

/-- The whole system: the shared database plus both agents' memories. -/
structure SysState where
  db : DB
  storeAg : StoreAgentState := {}
  whAg : WhAgentState := {}

/-- Point update of the inventory table. -/
def setInv (inv : String → String → Option Int) (p l : String) (q : Int) :
    String → String → Option Int :=
  fun p' l' => if p' == p then (if l' == l then some q else inv p' l') else inv p' l'

/-- A per-item shortfall entry of an insufficient-inventory response. -/
structure InsufficientItem where
  product_id : String
  requested : Int
  available : Int
deriving DecidableEq, Repr

/-- A store-agent response dict (only the keys the handlers produce). -/
structure StoreResp where
  status : String
  message : String := ""
  insufficient_items : List InsufficientItem := []
  transaction_id : Option String := none
  product_id : Option String := none
  new_quantity : Option Int := none
  order_id : Option String := none
deriving DecidableEq, Repr

/-- Outcome of the store agent's `process_message`: a response payload, no
response (unknown message type), or an uncaught exception. -/
inductive StoreOutcome where
  | response (r : StoreResp)
  | noResponse
  | raised
deriving DecidableEq, Repr

/-- Outcome of the warehouse agent's `process_message`: the warehouse
handlers answer with full envelopes or with `None`. -/
inductive WhOutcome where
  | response (e : Envelope)
  | noResponse
  | raised
deriving DecidableEq, Repr

/-- Update the value stored under a key of an association list. -/
def amap {α : Type} (k : String) (f : α → α) : List (String × α) → List (String × α)
  | [] => []
  | (k', v') :: rest => if k' == k then (k', f v') :: rest else (k', v') :: amap k f rest

/-- StoreAgent._request_replenishment: store a fresh request (retries reuse
`original_request_id` and, the key being present, leave the stored entry
untouched) and build the REPLENISHMENT_REQUEST envelope for the warehouse. -/
def request_replenishment (sys : SysState) (sid : String) (pid : String) (qty : Int)
    (priority : String) (is_retry : Bool) (original_request_id : Option String)
    (freshName : String) : SysState × Envelope :=
  let request_id :=
    match is_retry, original_request_id with
    | true, some r => r
    | true, none => "None"
    | false, _ => freshName
  let ag := sys.storeAg
  let ag' :=
    if (alookup request_id ag.pendingReplenishments).isNone then
      { ag with
        pendingReplenishments := ag.pendingReplenishments ++
          [(request_id,
            { product_id := pid, quantity := qty, priority := priority,
              status := "pending", retry_count := if is_retry then 1 else 0,
              reference_id := none })] }
    else ag
  let env : Envelope :=
    { sender := "store_agent_" ++ sid, recipient := "warehouse_agent_main",
      message_type := "REPLENISHMENT_REQUEST",
      content := { request_id := some request_id, product_id := some pid,
                   quantity := some qty, store_id := some sid,
                   priority := some priority } }
  ({ sys with storeAg := ag' }, env)

/-- Total pending replenishment quantity for a product (the sums computed
in `_check_reorder_needed` / `_check_inventory_levels`). -/
def pendingQtyFor (l : List (String × Replenishment)) (pid : String) : Int :=
  (l.filter (fun kr => kr.2.product_id == pid && kr.2.status == "pending")).foldl
    (fun a kr => a + kr.2.quantity) 0

/-- StoreAgent._check_reorder_needed: after a sale, order `max(10, 4×min)`
units at HIGH priority when at or below minimum stock and nothing pending. -/
def check_reorder_needed (sys : SysState) (sid : String) (pid : String)
    (freshName : String) : SysState × List Envelope :=
  match sys.db.inv pid sid with
  | none => (sys, [])
  | some q =>
    match sys.db.products pid with
    | none => (sys, [])
    | some prod =>
      if q ≤ prod.minimum_stock then
        let order_qty := max 10 (prod.minimum_stock * 4)
        if pendingQtyFor sys.storeAg.pendingReplenishments pid == 0 then
          let r := request_replenishment sys sid pid order_qty "HIGH" false none freshName
          (r.1, [r.2])
        else (sys, [])
      else (sys, [])

/-- Run `_check_reorder_needed` over the sold items, accumulating sent
messages (the loop at the end of `_process_sale`). -/
def checkReorderAll (sid : String) (fresh : ℕ → String) :
    SysState → List String → SysState × List Envelope
  | sys, [] => (sys, [])
  | sys, pid :: rest =>
    let r := check_reorder_needed sys sid pid (fresh rest.length)
    let r2 := checkReorderAll sid fresh r.1 rest
    (r2.1, r.2 ++ r2.2)

/-- The debit loop of StoreAgent._process_sale: debit each item, recording
a SALE ledger row; `none` models the rollback taken when any item no longer
has sufficient stock at debit time. -/
def processSaleItems (db : DB) (sid tid : String) : List Item → Option DB
  | [] => some db
  | it :: rest =>
    match db.inv it.product_id sid with
    | none => none
    | some q =>
      if q < it.quantity then none
      else
        processSaleItems
          { db with
            inv := setInv db.inv it.product_id sid (q - it.quantity),
            ledger := db.ledger ++
              [{ product_id := it.product_id, quantity_change := -it.quantity,
                 ttype := .SALE, reason := "Sale " ++ tid, location_id := sid,
                 reference_id := tid }] }
          sid tid rest

/-- StoreAgent._process_sale. -/
def process_sale (sys : SysState) (sid : String) (tid : String) (fresh : ℕ → String) :
    SysState × StoreOutcome × List Envelope :=
  match alookup tid sys.storeAg.pendingTransactions with
  | none =>
    (sys, .response { status := "error", message := "Unknown transaction: " ++ tid }, [])
  | some tx =>
    match processSaleItems sys.db sid tid tx.items with
    | none =>
      (sys, .response { status := "error",
                        message := "Insufficient inventory for product" }, [])
    | some db' =>
      let sys1 : SysState :=
        { sys with
          db := db',
          storeAg := { sys.storeAg with
                       pendingTransactions :=
                         aset tid { tx with status := "completed" }
                           sys.storeAg.pendingTransactions } }
      let r := checkReorderAll sid fresh sys1 (tx.items.map (·.product_id))
      (r.1, .response { status := "success", transaction_id := some tid,
                        message := "Sale processed successfully" }, r.2)

/-- Does the sale validation find this item short?  (Inventory row missing,
or stored quantity below the requested quantity.) -/
def shortB (db : DB) (sid : String) (it : Item) : Bool :=
  match db.inv it.product_id sid with
  | none => true
  | some q => decide (q < it.quantity)

/-- StoreAgent._handle_sale_request: all-or-nothing validation before any
write, then immediate processing of the stored pending transaction. -/
def handle_sale_request (sys : SysState) (sid : String) (env : Envelope)
    (fresh : ℕ → String) : SysState × StoreOutcome × List Envelope :=
  let c := env.content
  if !(truthyS c.transaction_id) || c.items.isEmpty then
    (sys, .response { status := "error",
                      message := "Invalid sale request: transaction_id and items required" }, [])
  else
    let tid := c.transaction_id.getD ""
    let checked := c.items.filter (fun it => !(it.product_id == "") && decide (0 < it.quantity))
    let insufficient := checked.filter (fun it => shortB sys.db sid it)
    let valid := checked.filter (fun it => !(shortB sys.db sid it))
    if !insufficient.isEmpty then
      (sys, .response { status := "insufficient_inventory",
                        message := "Insufficient inventory for some items",
                        insufficient_items := insufficient.map (fun it =>
                          { product_id := it.product_id, requested := it.quantity,
                            available := (sys.db.inv it.product_id sid).getD 0 }) }, [])
    else if valid.isEmpty then
      (sys, .response { status := "error", message := "No valid items in sale request" }, [])
    else
      let sys1 : SysState :=
        { sys with
          storeAg := { sys.storeAg with
                       pendingTransactions :=
                         aset tid { items := valid, status := "pending" }
                           sys.storeAg.pendingTransactions } }
      process_sale sys1 sid tid fresh

/-- The commit tail of StoreAgent._handle_inventory_update.  The
transaction-type attribute is looked up first (line 214 of the source,
before the `try` block): `TransactionType.DELIVERY` does not exist in
app/models/transaction.py, so the ADD path raises AttributeError and
nothing is committed. -/
def invUpdateCommit (sys : SysState) (sid pid : String) (qty newq : Int)
    (utype reason : String) (rid tfid : Option String) (freshName : String) :
    SysState × StoreOutcome × List Envelope :=
  match transactionTypeAttr (if utype == "ADD" then "DELIVERY" else "TRANSFER") with
  | none => (sys, .raised, [])
  | some tt =>
    let reference :=
      if truthyS rid then rid.getD ""
      else if truthyS tfid then tfid.getD ""
      else freshName
    let db' : DB :=
      { sys.db with
        inv := setInv sys.db.inv pid sid newq,
        ledger := sys.db.ledger ++
          [{ product_id := pid,
             quantity_change := if utype == "ADD" then qty else -qty,
             ttype := tt, reason := reason, location_id := sid,
             reference_id := reference }] }
    let ag := sys.storeAg
    let ag' :=
      if truthyS rid && (alookup (rid.getD "") ag.pendingReplenishments).isSome then
        { ag with
          pendingReplenishments :=
            amap (rid.getD "") (fun req => { req with status := "fulfilled" })
              ag.pendingReplenishments }
      else ag
    ({ sys with db := db', storeAg := ag' },
     .response { status := "success", product_id := some pid,
                 new_quantity := some newq,
                 message := "Inventory updated successfully" }, [])

/-- StoreAgent._handle_inventory_update. -/
def handle_inventory_update (sys : SysState) (sid : String) (env : Envelope)
    (fresh : ℕ → String) : SysState × StoreOutcome × List Envelope :=
  let c := env.content
  let qty := c.quantity.getD 0
  let utype := c.update_type.getD "ADD"
  let reason := c.reason.getD "Warehouse transfer"
  if !(truthyS c.product_id) || qty == 0 then
    (sys, .response { status := "error",
                      message := "Invalid inventory update: product_id and quantity required" }, [])
  else
    let pid := c.product_id.getD ""
    match sys.db.inv pid sid with
    | some q =>
      let newq := if utype == "ADD" then q + qty
        else if utype == "REMOVE" then max 0 (q - qty) else q
      invUpdateCommit sys sid pid qty newq utype reason c.request_id c.transfer_id (fresh 0)
    | none =>
      if utype == "ADD" then
        invUpdateCommit sys sid pid qty qty utype reason c.request_id c.transfer_id (fresh 0)
      else
        (sys, .response { status := "error",
                          message := "Cannot remove inventory for non-existent product: " ++ pid }, [])

/-- The items-back-to-inventory loop of StoreAgent._handle_order_update
(only reachable from its dead CANCELLED branch, see below). -/
def returnOrderItems (db : DB) (sid oid : String) : DB :=
  (db.orderItems.filter (fun it => it.order_id == oid)).foldl
    (fun d it =>
      match d.inv it.product_id sid with
      | none => d
      | some q =>
        { d with
          inv := setInv d.inv it.product_id sid (q + it.quantity),
          ledger := d.ledger ++
            [{ product_id := it.product_id, quantity_change := it.quantity,
               ttype := .RETURN, reason := "Order cancelled: " ++ oid,
               location_id := sid, reference_id := oid }] })
    db

/-- StoreAgent._handle_order_update.  `OrderStatus[status]` is evaluated
first; for "CANCELLED" it raises KeyError (the member is CANCELED), which
the handler's `except` turns into a rollback and an error payload.  The
`status == "CANCELLED" and order.status != DELIVERED` guard compares the
*already assigned* new status, and is dead because the assignment itself
cannot succeed for "CANCELLED". -/
def handle_order_update (sys : SysState) (sid : String) (env : Envelope) :
    SysState × StoreOutcome × List Envelope :=
  let c := env.content
  if !(truthyS c.order_id) || !(truthyS c.status) then
    (sys, .response { status := "error",
                      message := "Invalid order update: order_id and status required" }, [])
  else
    let oid := c.order_id.getD ""
    let st := c.status.getD ""
    match sys.db.orders oid with
    | none => (sys, .response { status := "error", message := "Unknown order: " ++ oid }, [])
    | some _ =>
      match orderStatusItem st with
      | none =>
        (sys, .response { status := "error",
                          message := "Error updating order: KeyError " ++ st }, [])
      | some newst =>
        let db1 : DB :=
          { sys.db with orders := fun o => if o == oid then some newst else sys.db.orders o }
        let db2 := if st == "CANCELLED" && !(newst == OrderStatus.DELIVERED) then
            returnOrderItems db1 sid oid
          else db1
        ({ sys with db := db2 },
         .response { status := "success", order_id := some oid,
                     message := "Order updated successfully" }, [])

/-- Find the first pending replenishment whose reference_id matches the
failed transfer id (the loop of `_handle_transfer_failed`). -/
def findRepl (tid : String) : List (String × Replenishment) →
    Option (String × Replenishment)
  | [] => none
  | (k, r) :: rest =>
    if r.reference_id == some tid then some (k, r) else findRepl tid rest

/-- StoreAgent._handle_transfer_failed: mark the matching request failed
and, while retry_count < 3, increment it and re-issue with a priority one
step below the *stored* priority (MEDIUM if it is HIGH, otherwise LOW). -/
def handle_transfer_failed (sys : SysState) (sid : String) (env : Envelope)
    (fresh : ℕ → String) : SysState × StoreOutcome × List Envelope :=
  let c := env.content
  if !(truthyS c.transfer_id) || !(truthyS c.product_id) then
    (sys, .response { status := "error",
                      message := "Invalid transfer failed notification: transfer_id and product_id required" }, [])
  else
    let tid := c.transfer_id.getD ""
    let pid := c.product_id.getD ""
    let reason := c.reason.getD "Unknown reason"
    match findRepl tid sys.storeAg.pendingReplenishments with
    | none =>
      (sys, .response { status := "acknowledged",
                        message := "Transfer failure acknowledged" }, [])
    | some (rid, req) =>
      if req.retry_count < 3 then
        let req2 : Replenishment :=
          { req with status := "failed", failure_reason := reason,
                     retry_count := req.retry_count + 1 }
        let sys2 : SysState :=
          { sys with
            storeAg := { sys.storeAg with
                         pendingReplenishments :=
                           aset rid req2 sys.storeAg.pendingReplenishments } }
        let priority := if req.priority == "HIGH" then "MEDIUM" else "LOW"
        let r := request_replenishment sys2 sid pid req.quantity priority true (some rid) (fresh 0)
        (r.1, .response { status := "acknowledged",
                          message := "Transfer failure processed for request " ++ rid }, [r.2])
      else
        let req1 : Replenishment := { req with status := "failed", failure_reason := reason }
        ({ sys with
           storeAg := { sys.storeAg with
                        pendingReplenishments :=
                          aset rid req1 sys.storeAg.pendingReplenishments } },
         .response { status := "acknowledged",
                     message := "Transfer failure processed for request " ++ rid }, [])

/-- StoreAgent.process_message: dispatch on message_type; unrecognized
types are logged and dropped with no response. -/
def storeProcessMessage (sys : SysState) (sid : String) (env : Envelope)
    (fresh : ℕ → String) : SysState × StoreOutcome × List Envelope :=
  if env.message_type == "SALE_REQUEST" then handle_sale_request sys sid env fresh
  else if env.message_type == "INVENTORY_UPDATE" then handle_inventory_update sys sid env fresh
  else if env.message_type == "ORDER_UPDATE" then handle_order_update sys sid env
  else if env.message_type == "TRANSFER_FAILED" then handle_transfer_failed sys sid env fresh
  else (sys, .noResponse, [])

/-- WarehouseAgent._calculate_priority_score:
`base(priority) × fulfillment_pct × value_factor` with base HIGH=100,
MEDIUM=50, LOW=10 (dict default 50), fulfillment_pct = min(1, avail/req),
value_factor = min(2, unit_price/100 + 0.5).  `none` models the
ZeroDivisionError raised when requested_quantity is 0. -/
def calculate_priority_score (priority : String) (product : Product)
    (available_quantity requested_quantity : Int) : Option ℚ :=
  if requested_quantity == 0 then none
  else
    let base_score : ℚ :=
      if priority == "HIGH" then 100
      else if priority == "MEDIUM" then 50
      else if priority == "LOW" then 10
      else 50
    let fulfillment_pct : ℚ := min 1 ((available_quantity : ℚ) / (requested_quantity : ℚ))
    let value_factor : ℚ := min 2 (product.unit_price / 100 + 1/2)
    some (base_score * fulfillment_pct * value_factor)

/-- Build a warehouse response envelope (the warehouse handlers answer with
full envelopes addressed to the incoming sender). -/
def whResponse (wid recip mtype : String) (c : Content) : Envelope :=
  { sender := "warehouse_agent_" ++ wid, recipient := recip,
    message_type := mtype, content := c }

/-- WarehouseAgent._request_from_supplier: send a SUPPLY_REQUEST and track
a pending order under a fresh request id. -/
def request_from_supplier (sys : SysState) (wid : String) (pid : String)
    (qty : Option Int) (store_id : Option String) (freshName : String) :
    SysState × Envelope :=
  let env : Envelope :=
    { sender := "warehouse_agent_" ++ wid, recipient := "supplier_agent",
      message_type := "SUPPLY_REQUEST",
      content := { product_id := some pid, quantity := qty,
                   warehouse_id := some wid, store_id := store_id } }
  let order : SupplierOrder :=
    { product_id := pid, quantity := qty, store_id := store_id, status := "REQUESTED" }
  ({ sys with
     whAg := { sys.whAg with
               pendingOrders := sys.whAg.pendingOrders ++ [(freshName, order)] } }, env)

/-- WarehouseAgent._handle_inventory_request: APPROVED / PARTIAL /
BACKORDERED three-way outcome.  A missing `quantity` key is compared
against an existing inventory row's quantity, which raises TypeError. -/
def handle_inventory_request (sys : SysState) (wid : String) (env : Envelope)
    (fresh : ℕ → String) : SysState × WhOutcome × List Envelope :=
  let c := env.content
  let pid := pyStr c.product_id
  match sys.db.products pid with
  | none =>
    (sys, .response (whResponse wid env.sender "INVENTORY_RESPONSE"
      { product_id := some pid, status := some "REJECTED",
        reason := some "Product not found" }), [])
  | some prod =>
    let priority := c.priority.getD "MEDIUM"
    match sys.db.inv pid wid, c.quantity with
    | some _, none => (sys, .raised, [])
    | some q, some rq =>
      if q < rq then
        if q > 0 then
          let tid := fresh 0
          match calculate_priority_score priority prod q rq with
          | none => (sys, .raised, [])
          | some score =>
            let t : Transfer :=
              { product_id := pid, store_id := pyStr c.store_id,
                requested_quantity := rq, available_quantity := q,
                priority := priority, status := "PENDING" }
            ({ sys with
               whAg := { sys.whAg with
                         pendingTransfers := sys.whAg.pendingTransfers ++ [(tid, t)],
                         transferPriorities := sys.whAg.transferPriorities ++ [(tid, score)] } },
             .response (whResponse wid env.sender "INVENTORY_RESPONSE"
               { product_id := some pid, status := some "PARTIAL",
                 transfer_id := some tid, available_quantity := some q,
                 requested_quantity := some rq }), [])
        else
          let r := request_from_supplier sys wid pid (some rq) c.store_id (fresh 0)
          (r.1, .response (whResponse wid env.sender "INVENTORY_RESPONSE"
            { product_id := some pid, status := some "BACKORDERED",
              reason := some "Insufficient inventory, order placed with supplier",
              available_quantity := some q,
              requested_quantity := some rq }), [r.2])
      else
        let tid := fresh 0
        match calculate_priority_score priority prod rq rq with
        | none => (sys, .raised, [])
        | some score =>
          let t : Transfer :=
            { product_id := pid, store_id := pyStr c.store_id,
              requested_quantity := rq, available_quantity := rq,
              priority := priority, status := "PENDING" }
          ({ sys with
             whAg := { sys.whAg with
                       pendingTransfers := sys.whAg.pendingTransfers ++ [(tid, t)],
                       transferPriorities := sys.whAg.transferPriorities ++ [(tid, score)] } },
           .response (whResponse wid env.sender "INVENTORY_RESPONSE"
             { product_id := some pid, status := some "APPROVED",
               transfer_id := some tid, quantity := some rq }), [])
    | none, rq? =>
      let r := request_from_supplier sys wid pid rq? c.store_id (fresh 0)
      (r.1, .response (whResponse wid env.sender "INVENTORY_RESPONSE"
        { product_id := some pid, status := some "BACKORDERED",
          reason := some "Insufficient inventory, order placed with supplier",
          available_quantity := some 0,
          requested_quantity := rq? }), [r.2])

/-- WarehouseAgent._handle_supply_confirmation: update the pending order,
and on DELIVERED notify the requesting store per item and drop the order. -/
def handle_supply_confirmation (sys : SysState) (wid : String) (env : Envelope) :
    SysState × WhOutcome × List Envelope :=
  let c := env.content
  let oid := c.order_id.getD ""
  match alookup oid sys.whAg.pendingOrders with
  | none => (sys, .noResponse, [])
  | some od =>
    let st := c.status.getD ""
    let ag1 := { sys.whAg with
                 pendingOrders := aset oid { od with status := st } sys.whAg.pendingOrders }
    if st == "DELIVERED" then
      let sent :=
        if truthyS od.store_id then
          c.items.map (fun it =>
            ({ sender := "warehouse_agent_" ++ wid,
               recipient := "store_agent_" ++ pyStr od.store_id,
               message_type := "INVENTORY_AVAILABLE",
               content := { product_id := some it.product_id,
                            quantity := some it.quantity,
                            warehouse_id := some wid,
                            order_id := some oid } } : Envelope))
        else []
      ({ sys with
         whAg := { ag1 with pendingOrders := adel oid ag1.pendingOrders } },
       .noResponse, sent)
    else ({ sys with whAg := ag1 }, .noResponse, [])

/-- WarehouseAgent._handle_transfer_status_update: note the failure
notification is sent with message_type "TRANSFER_UPDATE". -/
def handle_transfer_status_update (sys : SysState) (wid : String) (env : Envelope) :
    SysState × WhOutcome × List Envelope :=
  let c := env.content
  let tid := c.transfer_id.getD ""
  let st := c.status.getD ""
  match alookup tid sys.whAg.pendingTransfers with
  | none => (sys, .noResponse, [])
  | some t =>
    let ag1 := { sys.whAg with
                 pendingTransfers := aset tid { t with status := st } sys.whAg.pendingTransfers }
    if st == "COMPLETED" || st == "FAILED" then
      let sent :=
        if st == "FAILED" then
          [({ sender := "warehouse_agent_" ++ wid,
              recipient := "store_agent_" ++ t.store_id,
              message_type := "TRANSFER_UPDATE",
              content := { transfer_id := some tid, product_id := some t.product_id,
                           status := some "FAILED",
                           reason := some (c.reason.getD "Unknown reason") } } : Envelope)]
        else []
      ({ sys with
         whAg := { ag1 with
                   pendingTransfers := adel tid ag1.pendingTransfers,
                   transferPriorities := adel tid ag1.transferPriorities } },
       .noResponse, sent)
    else ({ sys with whAg := ag1 }, .noResponse, [])

/-- WarehouseAgent.process_message: dispatches only INVENTORY_REQUEST,
SUPPLY_CONFIRMATION and TRANSFER_STATUS_UPDATE; anything else (including
REPLENISHMENT_REQUEST) is logged as unknown and dropped with no response. -/
def whProcessMessage (sys : SysState) (wid : String) (env : Envelope)
    (fresh : ℕ → String) : SysState × WhOutcome × List Envelope :=
  if env.message_type == "INVENTORY_REQUEST" then handle_inventory_request sys wid env fresh
  else if env.message_type == "SUPPLY_CONFIRMATION" then handle_supply_confirmation sys wid env
  else if env.message_type == "TRANSFER_STATUS_UPDATE" then handle_transfer_status_update sys wid env
  else (sys, .noResponse, [])

/-- Stable descending insertion by score (the Python `sorted(...,
key=score, reverse=True)` of `_process_pending_transfers`). -/
def insertDesc (x : String × ℚ) : List (String × ℚ) → List (String × ℚ)
  | [] => [x]
  | y :: ys => if y.2 < x.2 then x :: y :: ys else y :: insertDesc x ys

/-- Stable descending sort by score. -/
def sortDesc : List (String × ℚ) → List (String × ℚ)
  | [] => []
  | x :: xs => insertDesc x (sortDesc xs)

/-- One transfer execution from the loop body of
WarehouseAgent._process_pending_transfers: re-validate available stock at
execution time; on shortfall mark FAILED and notify the store (with
message_type "TRANSFER_UPDATE"); otherwise debit the warehouse, record a
TRANSFER ledger row, set IN_TRANSIT and send TRANSFER_INITIATED. -/
def executeTransfer (sys : SysState) (wid : String) (tid : String) :
    SysState × List Envelope :=
  match alookup tid sys.whAg.pendingTransfers with
  | none => (sys, [])
  | some t =>
    if !(t.status == "PENDING") then (sys, [])
    else
      let q := t.available_quantity
      let failRes : SysState × List Envelope :=
        ({ sys with
           whAg := { sys.whAg with
                     pendingTransfers :=
                       aset tid { t with status := "FAILED", reason := "Insufficient inventory" }
                         sys.whAg.pendingTransfers } },
         [{ sender := "warehouse_agent_" ++ wid,
            recipient := "store_agent_" ++ t.store_id,
            message_type := "TRANSFER_UPDATE",
            content := { transfer_id := some tid, product_id := some t.product_id,
                         status := some "FAILED",
                         reason := some "Insufficient inventory" } }])
      match sys.db.inv t.product_id wid with
      | none => failRes
      | some wq =>
        if wq < q then failRes
        else
          let db' : DB :=
            { sys.db with
              inv := setInv sys.db.inv t.product_id wid (wq - q),
              ledger := sys.db.ledger ++
                [{ product_id := t.product_id, quantity_change := -q,
                   ttype := .TRANSFER, reason := "Transfer to store " ++ t.store_id,
                   location_id := wid, reference_id := tid }] }
          ({ sys with
             db := db',
             whAg := { sys.whAg with
                       pendingTransfers :=
                         aset tid { t with status := "IN_TRANSIT" } sys.whAg.pendingTransfers } },
           [{ sender := "warehouse_agent_" ++ wid,
              recipient := "store_agent_" ++ t.store_id,
              message_type := "TRANSFER_INITIATED",
              content := { transfer_id := some tid, product_id := some t.product_id,
                           quantity := some q, warehouse_id := some wid } }])

/-- Fold transfer execution over the priority-sorted id list. -/
def execTransferList (wid : String) : SysState → List (String × ℚ) →
    SysState × List Envelope
  | sys, [] => (sys, [])
  | sys, (tid, _) :: rest =>
    let r := executeTransfer sys wid tid
    let r2 := execTransferList wid r.1 rest
    (r2.1, r.2 ++ r2.2)

/-- WarehouseAgent._process_pending_transfers: highest score first. -/
def process_pending_transfers (sys : SysState) (wid : String) :
    SysState × List Envelope :=
  if sys.whAg.pendingTransfers.isEmpty then (sys, [])
  else execTransferList wid sys (sortDesc sys.whAg.transferPriorities)

/-- One system step: the store agent processes any message, the warehouse
agent processes any message, or the warehouse runs one pending-transfer
pass of its cycle — the operations that can touch inventory quantities. -/
inductive Step (sid wid : String) : SysState → SysState → Prop
  | storeMsg (s : SysState) (env : Envelope) (fresh : ℕ → String) :
      Step sid wid s (storeProcessMessage s sid env fresh).1
  | whMsg (s : SysState) (env : Envelope) (fresh : ℕ → String) :
      Step sid wid s (whProcessMessage s wid env fresh).1
  | whTransferPass (s : SysState) :
      Step sid wid s (process_pending_transfers s wid).1

/-- All inventory rows of the database are non-negative. -/
def NonNegDB (db : DB) : Prop :=
  ∀ p l q, db.inv p l = some q → 0 ≤ q

/-! ### Inventory optimizer (app/services/optimization/inventory.py)

Floats are idealised as real numbers; `math.sqrt` and `math.exp` become
`Real.sqrt` / `Real.exp`. -/

/-- The optimizer's configuration (constructor defaults 0.25 / 20). -/
structure InventoryOptimizer where
  holding_cost_pct : ℝ := 0.25
  ordering_cost : ℝ := 20

/-- `int(x)` on a float: truncation toward zero. -/
noncomputable def pyInt (x : ℝ) : ℤ := if x < 0 then ⌈x⌉ else ⌊x⌋

/-- `round(x, nd)`.  Mathlib's `round` is round-half-up while Python
rounds half to even; they differ only on exact ties, which none of the
theorems below touch (this rounding sits on the optimizer's dead path). -/
noncomputable def pyRound (nd : ℕ) (x : ℝ) : ℝ :=
  (round (x * (10 : ℝ) ^ nd) : ℤ) / (10 : ℝ) ^ nd

/-- InventoryOptimizer.calculate_eoq (Wilson formula, `math.ceil`ed). -/
noncomputable def calculate_eoq (o : InventoryOptimizer)
    (annual_demand unit_cost : ℝ) : ℤ :=
  if annual_demand ≤ 0 ∨ unit_cost ≤ 0 then 0
  else ⌈Real.sqrt ((2 * annual_demand * o.ordering_cost) / (unit_cost * o.holding_cost_pct))⌉

/-- InventoryOptimizer.calculate_safety_stock. -/
noncomputable def calculate_safety_stock (o : InventoryOptimizer)
    (avg_daily_demand lead_time_days service_level : ℝ)
    (demand_std_dev : Option ℝ) : ℝ :=
  if avg_daily_demand ≤ 0 ∨ lead_time_days ≤ 0 then 0
  else
    let sd := demand_std_dev.getD (avg_daily_demand * 0.3)
    let z : ℝ :=
      if service_level ≥ 0.99 then 2.326
      else if service_level ≥ 0.95 then 1.645
      else 1.282
    z * sd * Real.sqrt lead_time_days

/-- InventoryOptimizer.calculate_reorder_point.  Its parameters are
`(self, avg_daily_demand, lead_time_days, service_level=0.95)` — it has
no `demand_std_dev` parameter. -/
noncomputable def calculate_reorder_point (o : InventoryOptimizer)
    (avg_daily_demand lead_time_days service_level : ℝ) : ℤ :=
  if avg_daily_demand ≤ 0 ∨ lead_time_days ≤ 0 then 0
  else ⌈avg_daily_demand * lead_time_days +
        calculate_safety_stock o avg_daily_demand lead_time_days service_level none⌉

/-- The named parameters of `calculate_reorder_point` in the source. -/
def reorderPointParams : List String :=
  ["self", "avg_daily_demand", "lead_time_days", "service_level"]

/-- The keyword arguments `optimize_inventory_levels` passes to
`calculate_reorder_point` at inventory.py lines 160–164. -/
def optimizeReorderCallKw : List String := ["service_level", "demand_std_dev"]

/-- InventoryOptimizer._calculate_stockout_probability, translated
verbatim.  In the interior the source computes
`0.5 + 0.5*(1 - exp(-0.7 z²)) * (-1 if z < 0 else 1)` inside the `z < 0`
branch — the ternary multiplies by −1 there, so both branches evaluate to
`0.5 − 0.5·(1 − e^(−0.7 z²))`. -/
noncomputable def calculate_stockout_probability
    (current_stock avg_demand demand_std_dev lead_time : ℝ) : ℝ :=
  if avg_demand ≤ 0 then (if current_stock > 0 then 0 else 1)
  else
    let expected_demand := avg_demand * lead_time
    if current_stock ≥ expected_demand + 3 * demand_std_dev * Real.sqrt lead_time then 0
    else if current_stock ≤ expected_demand - 3 * demand_std_dev * Real.sqrt lead_time then 1
    else
      let z_score := (current_stock - expected_demand) / (demand_std_dev * Real.sqrt lead_time)
      if z_score < 0 then
        0.5 + 0.5 * (1 - Real.exp (-0.7 * z_score * z_score)) *
          (if z_score < 0 then -1 else 1)
      else
        0.5 - 0.5 * (1 - Real.exp (-0.7 * z_score * z_score))

/-- The `product_data` argument of optimize_inventory_levels. -/
structure OptProductData where
  unit_price : Option ℝ := none
  current_stock : Option ℝ := none

/-- The `forecast_data` DataFrame: the forecast column, and the
lower/upper-bound columns when present. -/
structure OptForecastData where
  forecast : List ℝ := []
  bounds : Option (List ℝ × List ℝ) := none

/-- The `supplier_data` argument. -/
structure OptSupplierData where
  lead_time : Option ℝ := none
  reliability_score : Option ℝ := none

/-- The `constraints` argument. -/
structure OptConstraints where
  service_level : Option ℝ := none

/-- The result dictionary of optimize_inventory_levels. -/
structure OptResults where
  economic_order_quantity : ℤ
  reorder_point : ℤ
  safety_stock : ℤ
  max_stock_level : ℤ
  current_stock : ℝ
  order_recommendation : ℤ
  days_of_supply : ℝ
  avg_daily_demand : ℝ
  stockout_probability : ℝ
  annual_holding_cost : ℝ
  order_cycle_days : ℝ
  errKey : Option String

/-- Mean of a list (`pandas.Series.mean`). -/
noncomputable def listMean (l : List ℝ) : ℝ := l.sum / l.length

/-- Sample standard deviation (`pandas.Series.std`, ddof = 1).  pandas
yields NaN for a singleton series; the value taken here for that case is
irrelevant because `optimize_inventory_levels` aborts before using it. -/
noncomputable def sampleStd (l : List ℝ) : ℝ :=
  Real.sqrt ((l.map (fun x => (x - listMean l) ^ 2)).sum / ((l.length : ℝ) - 1))

/-- InventoryOptimizer.optimize_inventory_levels.  The `try` body calls
`calculate_reorder_point(..., service_level=..., demand_std_dev=...)`;
whether that invocation is legal is checked against the callee's actual
parameter list, exactly as Python does on every call.  Since
`demand_std_dev` is not among `reorderPointParams`, the call raises
TypeError, the `except` branch catches it, and the defaulted error payload
is returned.  The `then` branch spells out the rest of the `try` body. -/
noncomputable def optimize_inventory_levels (o : InventoryOptimizer)
    (product_data : OptProductData) (forecast_data : OptForecastData)
    (supplier_data : OptSupplierData) (constraints : OptConstraints) : OptResults :=
  let unit_cost := product_data.unit_price.getD 0
  let current_stock := product_data.current_stock.getD 0
  let lead_time_days := supplier_data.lead_time.getD 7
  let reliability := supplier_data.reliability_score.getD 0.9
  let avg_daily_demand :=
    if forecast_data.forecast.length > 0 then listMean forecast_data.forecast else 1
  let demand_variability :=
    if forecast_data.forecast.length > 0 then
      match forecast_data.bounds with
      | some (lo, hi) => listMean ((hi.zip lo).map (fun p => p.1 - p.2)) / 4
      | none => sampleStd forecast_data.forecast
    else 0.5
  let annual_demand := avg_daily_demand * 365
  let eoq := calculate_eoq o annual_demand unit_cost
  let adjusted_lead_time := lead_time_days / reliability
  if optimizeReorderCallKw.all (fun k => reorderPointParams.contains k) then
    let service_level := constraints.service_level.getD 0.95
    let reorder_point := calculate_reorder_point o avg_daily_demand adjusted_lead_time service_level
    let safety_stock := calculate_safety_stock o avg_daily_demand adjusted_lead_time
      service_level (some demand_variability)
    let max_stock := reorder_point + eoq
    let order_recommendation := if current_stock ≤ (reorder_point : ℝ) then eoq else 0
    let days_of_supply := if avg_daily_demand > 0 then current_stock / avg_daily_demand else 0
    let stockout_prob := calculate_stockout_probability current_stock avg_daily_demand
      demand_variability lead_time_days
    { economic_order_quantity := eoq,
      reorder_point := reorder_point,
      safety_stock := pyInt safety_stock,
      max_stock_level := max_stock,
      current_stock := (pyInt current_stock : ℝ),
      order_recommendation := order_recommendation,
      days_of_supply := pyRound 1 days_of_supply,
      avg_daily_demand := pyRound 2 avg_daily_demand,
      stockout_probability := pyRound 2 (stockout_prob * 100),
      annual_holding_cost := pyRound 2 ((max_stock : ℝ) * unit_cost * o.holding_cost_pct),
      order_cycle_days := pyRound 1 (if avg_daily_demand > 0 then (eoq : ℝ) / avg_daily_demand else 0),
      errKey := none }
  else
    { economic_order_quantity := 0,
      reorder_point := 0,
      safety_stock := 0,
      max_stock_level := 0,
      current_stock := current_stock,
      order_recommendation := 0,
      days_of_supply := 0,
      avg_daily_demand := 0,
      stockout_probability := 100,
      annual_holding_cost := 0,
      order_cycle_days := 0,
      errKey := some "TypeError: calculate_reorder_point got an unexpected keyword argument demand_std_dev" }

/-! ### Concrete fixtures used by the claim theorems and witnesses -/

/-- An empty database. -/
def emptyDB : DB :=
  { inv := fun _ _ => none, products := fun _ => none, orders := fun _ => none,
    orderItems := [], ledger := [] }

/-- A deterministic stand-in for the uuid stream. -/
def fresh0 : ℕ → String := fun n => "uuid-" ++ toString n

/-- Available quantity as the sale validation reports it
(`inventory.quantity if inventory else 0`). -/
def availD (db : DB) (sid pid : String) : Int := (db.inv pid sid).getD 0

/-- An ORDER_UPDATE envelope. -/
def orderUpdateEnv (oid st : String) : Envelope :=
  { message_type := "ORDER_UPDATE", content := { order_id := some oid, status := some st } }

/-- A SALE_REQUEST envelope. -/
def saleEnv (tid : String) (items : List Item) : Envelope :=
  { message_type := "SALE_REQUEST", content := { transaction_id := some tid, items := items } }

/-- An INVENTORY_UPDATE envelope. -/
def invUpdateEnv (pid : String) (qty : Int) (utype : String) : Envelope :=
  { message_type := "INVENTORY_UPDATE",
    content := { product_id := some pid, quantity := some qty, update_type := some utype } }

/-- System with an empty database (C5, C10). -/
def sysEmpty : SysState := { db := emptyDB }

/-- C6 database: product P1 exists, the warehouse holds only 3 units. -/
def c6DB : DB :=
  { emptyDB with
    inv := fun p l => if p == "P1" then (if l == "WH1" then some 3 else none) else none,
    products := fun p => if p == "P1" then some { unit_price := 50 } else none }

/-- C6 system: one PENDING transfer of 5 units of P1 to store S1. -/
def c6Sys : SysState :=
  { db := c6DB,
    whAg := { pendingTransfers :=
                [("T1", { product_id := "P1", store_id := "S1", requested_quantity := 5,
                          available_quantity := 5, priority := "HIGH", status := "PENDING" })],
              transferPriorities := [("T1", 100)] } }

/-- The failure notification the C6 warehouse emits. -/
def c6FailEnv : Envelope :=
  { sender := "warehouse_agent_WH1", recipient := "store_agent_S1",
    message_type := "TRANSFER_UPDATE",
    content := { transfer_id := some "T1", product_id := some "P1",
                 status := some "FAILED", reason := some "Insufficient inventory" } }

/-- C4 initial replenishment request (retry_count 0, reference_id T9). -/
def c4Repl (prio : String) : Replenishment :=
  { product_id := "P1", quantity := 5, priority := prio, status := "pending",
    retry_count := 0, reference_id := some "T9" }

/-- C4 store state holding the single request r1. -/
def c4Sys (prio : String) : SysState :=
  { db := emptyDB, storeAg := { pendingReplenishments := [("r1", c4Repl prio)] } }

/-- The TRANSFER_FAILED message whose transfer_id matches r1's reference_id. -/
def c4FailEnv : Envelope :=
  { message_type := "TRANSFER_FAILED",
    content := { transfer_id := some "T9", product_id := some "P1", reason := some "boom" } }

/-- The one-step demotion `"MEDIUM" if priority == "HIGH" else "LOW"`. -/
def demotePriority (prio : String) : String := if prio == "HIGH" then "MEDIUM" else "LOW"

/-- The envelope each C4 retry issues: same request_id r1, priority one
step below the stored (never-updated) original priority. -/
def c4RetryEnv (prio : String) : Envelope :=
  { sender := "store_agent_S1", recipient := "warehouse_agent_main",
    message_type := "REPLENISHMENT_REQUEST",
    content := { request_id := some "r1", product_id := some "P1", quantity := some 5,
                 store_id := some "S1", priority := some (demotePriority prio) } }

/-- Deliver the C4 failure message n times to the store agent, collecting
the messages it sends out. -/
def iterFailures (sid : String) : ℕ → SysState → SysState × List Envelope
  | 0, s => (s, [])
  | n + 1, s =>
    let r := storeProcessMessage s sid c4FailEnv fresh0
    let r2 := iterFailures sid n r.1
    (r2.1, r.2.2 ++ r2.2)

/-- The C4 state after n failures: status failed, retry_count capped at 3,
priority and request_id untouched. -/
def c4StateAfter (prio : String) (n : ℕ) : SysState :=
  if n = 0 then c4Sys prio
  else
    { db := emptyDB,
      storeAg := { pendingReplenishments :=
        [("r1", { c4Repl prio with
                  status := "failed", failure_reason := "boom",
                  retry_count := min n 3 })] } }

/-- C2 fixture: order O1 is DELIVERED; P1 has stock and an order item so a
double return would be observable. -/
def c2Sys : SysState :=
  { db := { emptyDB with
            orders := fun o => if o == "O1" then some .DELIVERED else none,
            orderItems := [{ order_id := "O1", product_id := "P1", quantity := 2 }],
            inv := fun p l => if p == "P1" && l == "S1" then some 4 else none } }

/-- C3 fixture: P1 has 2 units at S1, P2 has 9. -/
def c3Sys : SysState :=
  { db := { emptyDB with
            inv := fun p l =>
              if l == "S1" then
                (if p == "P1" then some 2 else if p == "P2" then some 9 else none)
              else none } }

/-- The spec's sale example: `[{P1,3},{P2,1}]`. -/
def c3Items : List Item :=
  [{ product_id := "P1", quantity := 3 }, { product_id := "P2", quantity := 1 }]

/-- C9 warehouse database: PA ($50) and PB ($150) in stock. -/
def c9DB : DB :=
  { emptyDB with
    inv := fun p l =>
      if l == "WH1" then
        (if p == "PA" then some 7 else if p == "PB" then some 4 else none)
      else none,
    products := fun p =>
      if p == "PA" then some { unit_price := 50 }
      else if p == "PB" then some { unit_price := 150 }
      else none }

/-- C9 system: a LOW transfer (score 20) inserted before a HIGH transfer
(score 100), so priority ordering — not insertion order — decides. -/
def c9Sys : SysState :=
  { db := c9DB,
    whAg := { pendingTransfers :=
                [("TL", { product_id := "PB", store_id := "S1", requested_quantity := 4,
                          available_quantity := 4, priority := "LOW", status := "PENDING" }),
                 ("TH", { product_id := "PA", store_id := "S1", requested_quantity := 7,
                          available_quantity := 7, priority := "HIGH", status := "PENDING" })],
              transferPriorities := [("TL", 20), ("TH", 100)] } }

/-- The spec's wording of the priority-score formula:
`base(priority) × fulfillment_ratio × value_factor`, base HIGH=100,
MEDIUM=50, LOW=10, fulfillment = min(1, available/requested),
value_factor = min(2.0, unit_price/100 + 0.5). -/
def specPriorityScore (priority : String) (unit_price avail req : ℚ) : ℚ :=
  (if priority == "HIGH" then 100 else if priority == "MEDIUM" then 50 else 10) *
    min 1 (avail / req) * min 2 (unit_price / 100 + 1/2)

/-! ### Claim theorems -/

/-- C5: the store's replenishment envelope (message_type
REPLENISHMENT_REQUEST) is dropped by the warehouse's process_message as an
unknown message type: no state change, no response, no outgoing message —
the warehouse dispatches only INVENTORY_REQUEST, SUPPLY_CONFIRMATION and
TRANSFER_STATUS_UPDATE, so it neither creates a pending transfer nor sends
a SUPPLY_REQUEST for it.  (Refutes the claim as stated.) -/
theorem C5_replenishment_request_dropped_by_warehouse :
    (request_replenishment sysEmpty "S1" "P1" 5 "HIGH" false none "req-1").2.message_type
      = "REPLENISHMENT_REQUEST" ∧
    whProcessMessage sysEmpty "WH1"
        (request_replenishment sysEmpty "S1" "P1" 5 "HIGH" false none "req-1").2 fresh0
      = (sysEmpty, .noResponse, []) :=
  ⟨rfl, rfl⟩

/-- C6: when a transfer fails at execution time the warehouse notifies the
store with an envelope of message_type "TRANSFER_UPDATE", which the
store's process_message does not dispatch (its TRANSFER_FAILED branch
never sees it): the store drops the notification with no state change, no
response and no retry message.  (Refutes the claim as stated.) -/
theorem C6_transfer_failure_notification_dropped_by_store :
    (process_pending_transfers c6Sys "WH1").2 = [c6FailEnv] ∧
    c6FailEnv.message_type = "TRANSFER_UPDATE" ∧
    storeProcessMessage (process_pending_transfers c6Sys "WH1").1 "S1" c6FailEnv fresh0
      = ((process_pending_transfers c6Sys "WH1").1, .noResponse, []) :=
  ⟨rfl, rfl, rfl⟩

/-- C10: an INVENTORY_UPDATE of type ADD for a product with no inventory
row raises AttributeError (TransactionType.DELIVERY does not exist in
app/models/transaction.py), so no row is committed and no DELIVERY
transaction is recorded — contrary to the claim's first half; the REMOVE
half (error, nothing changed) behaves as claimed. -/
theorem C10_inventory_update_without_row :
    (storeProcessMessage sysEmpty "S1" (invUpdateEnv "P1" 5 "ADD") fresh0
        = (sysEmpty, .raised, []) ∧
      transactionTypeAttr "DELIVERY" = none) ∧
    storeProcessMessage sysEmpty "S1" (invUpdateEnv "P1" 5 "REMOVE") fresh0
      = (sysEmpty, .response { status := "error",
                               message := "Cannot remove inventory for non-existent product: " ++ "P1" }, []) :=
  ⟨⟨rfl, rfl⟩, rfl⟩

/-- One TRANSFER_FAILED delivery to the C4 store: status set to failed,
retry_count bumped (capped at 3), and while a retry fires it carries the
demotion of the stored — never updated — priority. -/
theorem c4_step (prio : String) (k : ℕ) :
    storeProcessMessage (c4StateAfter prio k) "S1" c4FailEnv fresh0 =
      (c4StateAfter prio (k + 1),
       .response { status := "acknowledged",
                   message := "Transfer failure processed for request " ++ "r1" },
       if k < 3 then [c4RetryEnv prio] else []) := by
  rcases Nat.lt_or_ge k 3 with h3 | h4
  · interval_cases k
    · rfl
    · rfl
    · rfl
  · have hk0 : ¬(k = 0) := by omega
    have hk10 : ¬(k + 1 = 0) := by omega
    have hm : min k 3 = 3 := min_eq_right h4
    have hm2 : min (k + 1) 3 = 3 := by omega
    rw [if_neg (by omega : ¬ k < 3)]
    simp only [c4StateAfter, if_neg hk0, if_neg hk10, hm, hm2]
    rfl

/-- Running n C4 failures from the k-failure state. -/
theorem c4_run_from (prio : String) :
    ∀ n k, iterFailures "S1" n (c4StateAfter prio k) =
      (c4StateAfter prio (k + n),
       List.replicate (min (k + n) 3 - min k 3) (c4RetryEnv prio)) := by
  intro n
  induction n with
  | zero =>
    intro k
    simp [iterFailures]
  | succ n ih =>
    intro k
    show
      (let r := storeProcessMessage (c4StateAfter prio k) "S1" c4FailEnv fresh0
       let r2 := iterFailures "S1" n r.1
       (r2.1, r.2.2 ++ r2.2)) = _
    rw [c4_step prio k]
    simp only [ih (k + 1)]
    rcases Nat.lt_or_ge k 3 with h3 | h4
    · rw [if_pos h3]
      have h1 : k + 1 + n = k + (n + 1) := by omega
      rw [h1]
      have hc : min (k + (n + 1)) 3 - min k 3 =
          (min (k + (n + 1)) 3 - min (k + 1) 3) + 1 := by omega
      rw [hc, List.replicate_succ, List.singleton_append]
    · rw [if_neg (by omega : ¬ k < 3)]
      have h1 : k + 1 + n = k + (n + 1) := by omega
      have h2 : min (k + (n + 1)) 3 - min k 3 = 0 := by omega
      have h3 : min (k + (n + 1)) 3 - min (k + 1) 3 = 0 := by omega
      rw [h1, h2, h3]
      rfl

/-- C4 counterexample: on an initially-HIGH request, the second automatic
retry is issued with priority MEDIUM again, not LOW — the stored request's
priority is never updated, so the demotion never progresses past one step.
(The claim predicts issued priorities HIGH→MEDIUM→LOW.) -/
theorem C4_second_retry_priority_is_MEDIUM_not_LOW :
    (iterFailures "S1" 2 (c4Sys "HIGH")).2.get? 1 = some (c4RetryEnv "HIGH") ∧
    (c4RetryEnv "HIGH").content.priority = some "MEDIUM" ∧
    ("MEDIUM" : String) ≠ "LOW" :=
  ⟨rfl, rfl, by decide⟩

/-- C4 (amended): after n matching TRANSFER_FAILED messages, retry_count
is min(n,3) (so a 4th failure triggers no retry), exactly min(n,3) retry
messages are issued, every one re-uses request_id r1 with priority one
step below the stored original (MEDIUM if HIGH, else LOW — never two
steps), and the pending map still holds the single entry r1 (no duplicate,
no overwrite). -/
theorem C4_retry_cap_and_single_step_demotion (prio : String) (n : ℕ) :
    (iterFailures "S1" n (c4Sys prio)).2 = List.replicate (min n 3) (c4RetryEnv prio) ∧
    (alookup "r1" (iterFailures "S1" n (c4Sys prio)).1.storeAg.pendingReplenishments).map
        (fun r => r.retry_count) = some (min n 3) ∧
    (iterFailures "S1" n (c4Sys prio)).1.storeAg.pendingReplenishments.map Prod.fst = ["r1"] ∧
    (c4RetryEnv prio).content.priority = some (demotePriority prio) := by
  have h := c4_run_from prio n 0
  have h0 : (0 : ℕ) + n = n := by omega
  rw [h0] at h
  have hrep : min n 3 - min 0 3 = min n 3 := by omega
  rw [hrep] at h
  rw [show c4StateAfter prio 0 = c4Sys prio from rfl] at h
  refine ⟨by rw [h], ?_, ?_, rfl⟩
  · rw [h]
    by_cases hn : n = 0
    · subst hn; rfl
    · simp only [c4StateAfter, if_neg hn]
      rfl
  · rw [h]
    by_cases hn : n = 0
    · subst hn; rfl
    · simp only [c4StateAfter, if_neg hn]
      rfl

/-- C8: the stockout-probability approximation is *symmetric*, not
asymmetric: at z = −1 (stock one sigma below expected lead-time demand,
input (0,1,1,1)) and at z = +1 (input (2,1,1,1)) it returns the same value
0.5 − 0.5·(1 − e^(−0.7)) ≈ 0.248, strictly below one half — the ternary
`(-1 if z_score < 0 else 1)` inside the `z_score < 0` branch flips the
intended `+` back to `−`.  (The claim predicts 0.5 + 0.5·(1 − e^(−0.7))
for z < 0.) -/
theorem C8_stockout_probability_symmetric_below_half :
    calculate_stockout_probability 0 1 1 1 = 0.5 - 0.5 * (1 - Real.exp (-0.7)) ∧
    calculate_stockout_probability 2 1 1 1 = 0.5 - 0.5 * (1 - Real.exp (-0.7)) ∧
    calculate_stockout_probability 0 1 1 1 < 0.5 := by
  have hneg : calculate_stockout_probability 0 1 1 1
      = 0.5 - 0.5 * (1 - Real.exp (-0.7)) := by
    simp only [calculate_stockout_probability, Real.sqrt_one]
    rw [if_neg (by norm_num), if_neg (by norm_num), if_neg (by norm_num),
      if_pos (by norm_num), if_pos (by norm_num)]
    norm_num
    ring_nf
  have hpos : calculate_stockout_probability 2 1 1 1
      = 0.5 - 0.5 * (1 - Real.exp (-0.7)) := by
    simp only [calculate_stockout_probability, Real.sqrt_one]
    rw [if_neg (by norm_num), if_neg (by norm_num), if_neg (by norm_num),
      if_neg (by norm_num)]
    norm_num
  refine ⟨hneg, hpos, ?_⟩
  rw [hneg]
  have he : Real.exp (-0.7) < 1 := Real.exp_lt_one_iff.mpr (by norm_num)
  nlinarith [he]

/-- C7: `optimize_inventory_levels` always raises TypeError — it calls
`calculate_reorder_point` with the keyword argument `demand_std_dev`,
which is not among that function's parameters — so for *every* input,
positive unit price and non-empty forecast included, it returns the
defaulted error payload (zeros, stockout_probability 100), never the
composed optimizer results the claim describes. -/
theorem C7_optimize_always_returns_error_payload :
    (∀ (o : InventoryOptimizer) (pd : OptProductData) (fc : OptForecastData)
        (sd : OptSupplierData) (cs : OptConstraints),
      (optimize_inventory_levels o pd fc sd cs).economic_order_quantity = 0 ∧
      (optimize_inventory_levels o pd fc sd cs).reorder_point = 0 ∧
      (optimize_inventory_levels o pd fc sd cs).safety_stock = 0 ∧
      (optimize_inventory_levels o pd fc sd cs).stockout_probability = 100 ∧
      (optimize_inventory_levels o pd fc sd cs).errKey.isSome = true) ∧
    ("demand_std_dev" ∈ optimizeReorderCallKw ∧ "demand_std_dev" ∉ reorderPointParams) ∧
    ((0 : ℝ) < 10 ∧ ([10, 10, 10] : List ℝ) ≠ [] ∧
      (optimize_inventory_levels {} { unit_price := some 10, current_stock := some 50 }
          { forecast := [10, 10, 10] } { lead_time := some 7, reliability_score := some 0.9 }
          {}).stockout_probability = 100 ∧
      (optimize_inventory_levels {} { unit_price := some 10, current_stock := some 50 }
          { forecast := [10, 10, 10] } { lead_time := some 7, reliability_score := some 0.9 }
          {}).economic_order_quantity = 0) := by
  have hk : (optimizeReorderCallKw.all (fun k => reorderPointParams.contains k)) = false := by
    decide
  have hmain : ∀ (o : InventoryOptimizer) (pd : OptProductData) (fc : OptForecastData)
      (sd : OptSupplierData) (cs : OptConstraints),
      (optimize_inventory_levels o pd fc sd cs).economic_order_quantity = 0 ∧
      (optimize_inventory_levels o pd fc sd cs).reorder_point = 0 ∧
      (optimize_inventory_levels o pd fc sd cs).safety_stock = 0 ∧
      (optimize_inventory_levels o pd fc sd cs).stockout_probability = 100 ∧
      (optimize_inventory_levels o pd fc sd cs).errKey.isSome = true := by
    intro o pd fc sd cs
    simp only [optimize_inventory_levels, hk]
    norm_num
  exact ⟨hmain, ⟨by decide, by decide⟩,
    by norm_num, by simp,
    (hmain {} _ _ _ _).2.2.2.1, (hmain {} _ _ _ _).1⟩

/-- C2: processing ORDER_UPDATE with status "CANCELLED" on an order whose
status is DELIVERED changes nothing — no inventory credit, no RETURN
ledger row (the whole state is returned unchanged) — and answers with an
error.  (Mechanism: `OrderStatus[...]` raises KeyError for "CANCELLED" —
the model's member is CANCELED — and the handler's except branch rolls
back; the `order.status != DELIVERED` guard itself compares the freshly
assigned status and is dead code.) -/
theorem C2_delivered_order_never_double_returned
    (sys : SysState) (sid oid : String) (fresh : ℕ → String)
    (hdel : sys.db.orders oid = some OrderStatus.DELIVERED)
    (hoid : oid ≠ "") :
    storeProcessMessage sys sid (orderUpdateEnv oid "CANCELLED") fresh =
      (sys, .response { status := "error",
                        message := "Error updating order: KeyError " ++ "CANCELLED" }, []) := by
  have hb : (oid == "") = false := by
    simp only [beq_eq_false_iff_ne, ne_eq]
    exact hoid
  show handle_order_update sys sid (orderUpdateEnv oid "CANCELLED") = _
  unfold handle_order_update
  simp only [orderUpdateEnv, truthyS, hb, Option.getD_some, Bool.not_false, Bool.not_true,
    Bool.or_self, Bool.or_false, Bool.false_or]
  rw [if_neg (by simp)]
  rw [hdel]
  rfl

/-- C2 witness at a concrete DELIVERED order with stock and order items. -/
theorem C2_witness :
    c2Sys.db.orders "O1" = some OrderStatus.DELIVERED ∧
    storeProcessMessage c2Sys "S1" (orderUpdateEnv "O1" "CANCELLED") fresh0 =
      (c2Sys, .response { status := "error",
                          message := "Error updating order: KeyError " ++ "CANCELLED" }, []) :=
  ⟨rfl, C2_delivered_order_never_double_returned c2Sys "S1" "O1" fresh0 rfl (by decide)⟩

/-- The sale validation flags an item exactly when its requested quantity
exceeds the available quantity (for positive requests). -/
theorem shortB_of_avail_lt (db : DB) (sid : String) (it : Item)
    (hlt : availD db sid it.product_id < it.quantity) :
    shortB db sid it = true := by
  unfold shortB
  unfold availD at hlt
  cases h : db.inv it.product_id sid with
  | none => rfl
  | some q =>
    rw [h] at hlt
    simp only [Option.getD_some] at hlt
    simp [hlt]

/-- C3: a SALE_REQUEST containing an item whose requested quantity exceeds
the available stock is rejected as a whole: state unchanged (no debit, no
SALE ledger row, no pending transaction stored), nothing sent, and the
insufficient_inventory response lists every short item with its requested
and available quantities. -/
theorem C3_insufficient_sale_rejected_atomically
    (sys : SysState) (sid tid : String) (items : List Item) (fresh : ℕ → String)
    (htid : tid ≠ "")
    (hbad : ∃ it ∈ items, it.product_id ≠ "" ∧ 0 < it.quantity ∧
      availD sys.db sid it.product_id < it.quantity) :
    (storeProcessMessage sys sid (saleEnv tid items) fresh).1 = sys ∧
    (storeProcessMessage sys sid (saleEnv tid items) fresh).2.2 = [] ∧
    ∃ L, (storeProcessMessage sys sid (saleEnv tid items) fresh).2.1 =
        .response { status := "insufficient_inventory",
                    message := "Insufficient inventory for some items",
                    insufficient_items := L } ∧
      ∀ it ∈ items, it.product_id ≠ "" → 0 < it.quantity →
        availD sys.db sid it.product_id < it.quantity →
        ({ product_id := it.product_id, requested := it.quantity,
           available := availD sys.db sid it.product_id } : InsufficientItem) ∈ L := by
  have hb : (tid == "") = false := by
    simp only [beq_eq_false_iff_ne, ne_eq]
    exact htid
  obtain ⟨it0, hmem0, hpid0, hqty0, hlt0⟩ := hbad
  have hne : items ≠ [] := List.ne_nil_of_mem hmem0
  have hie : items.isEmpty = false := by
    cases h : items.isEmpty
    · rfl
    · exact absurd (List.isEmpty_iff.mp h) hne
  have hdisp : storeProcessMessage sys sid (saleEnv tid items) fresh =
      handle_sale_request sys sid (saleEnv tid items) fresh := rfl
  have hmem0c : it0 ∈ items.filter
      (fun it => !(it.product_id == "") && decide (0 < it.quantity)) := by
    refine List.mem_filter.mpr ⟨hmem0, ?_⟩
    simp [hpid0, hqty0]
  have hmem0i : it0 ∈ (items.filter
      (fun it => !(it.product_id == "") && decide (0 < it.quantity))).filter
        (fun it => shortB sys.db sid it) :=
    List.mem_filter.mpr ⟨hmem0c, shortB_of_avail_lt sys.db sid it0 hlt0⟩
  have hins : ((items.filter
      (fun it => !(it.product_id == "") && decide (0 < it.quantity))).filter
        (fun it => shortB sys.db sid it)).isEmpty = false := by
    cases h : ((items.filter _).filter _).isEmpty
    · rfl
    · exact absurd (List.isEmpty_iff.mp h) (List.ne_nil_of_mem hmem0i)
  rw [hdisp]
  unfold handle_sale_request
  simp only [saleEnv, truthyS, hb, Option.getD_some, Bool.not_false, Bool.not_true, hie,
    Bool.or_false, hins, Bool.not_eq_true']
  rw [if_pos trivial]
  refine ⟨rfl, rfl, _, rfl, ?_⟩
  intro it hmem hpid hqty hlt
  refine List.mem_map.mpr ⟨it, ?_, rfl⟩
  refine List.mem_filter.mpr ⟨List.mem_filter.mpr ⟨hmem, by simp [hpid, hqty]⟩,
    shortB_of_avail_lt sys.db sid it hlt⟩

/-- C3 witness: the spec's own example — P1 requested 3 with only 2 in
stock, P2 requested 1 with 9 in stock: rejected in full, P1's shortfall
{requested 3, available 2} listed. -/
theorem C3_witness :
    (storeProcessMessage c3Sys "S1" (saleEnv "tx1" c3Items) fresh0).1 = c3Sys ∧
    ({ product_id := "P1", requested := 3, available := 2 } : InsufficientItem) ∈
      [({ product_id := "P1", requested := 3, available := 2 } : InsufficientItem)] := by
  have h := C3_insufficient_sale_rejected_atomically c3Sys "S1" "tx1" c3Items fresh0
    (by decide)
    ⟨{ product_id := "P1", quantity := 3 }, by simp [c3Items], by decide, by decide, by decide⟩
  exact ⟨h.1, List.mem_singleton.mpr rfl⟩

/-- Head of a descending insertion is the new element or the old head. -/
theorem insertDesc_head (x : String × ℚ) (l : List (String × ℚ)) :
    (insertDesc x l).head? = some x ∨ (insertDesc x l).head? = l.head? := by
  cases l with
  | nil => left; rfl
  | cons y ys =>
    unfold insertDesc
    split
    · left; rfl
    · right; rfl

/-- Descending insertion preserves descending order. -/
theorem chain'_insertDesc (x : String × ℚ) (l : List (String × ℚ))
    (h : List.Chain' (fun a b => b.2 ≤ a.2) l) :
    List.Chain' (fun a b => b.2 ≤ a.2) (insertDesc x l) := by
  induction l with
  | nil => simp [insertDesc]
  | cons y ys ih =>
    rw [List.chain'_cons'] at h
    obtain ⟨hy, hys⟩ := h
    unfold insertDesc
    split
    · rename_i hlt
      exact List.Chain'.cons (le_of_lt hlt) (List.chain'_cons'.mpr ⟨hy, hys⟩)
    · rename_i hnlt
      refine List.chain'_cons'.mpr ⟨?_, ih hys⟩
      intro b hb
      rcases insertDesc_head x ys with hh | hh
      · rw [hh] at hb
        cases hb
        exact le_of_not_lt hnlt
      · rw [hh] at hb
        exact hy b hb

/-- The per-cycle sort is descending in score. -/
theorem sortDesc_sorted (l : List (String × ℚ)) :
    List.Chain' (fun a b => b.2 ≤ a.2) (sortDesc l) := by
  induction l with
  | nil => simp [sortDesc]
  | cons x xs ih => exact chain'_insertDesc x (sortDesc xs) ih

/-- C9: the priority score matches the spec formula (for the defined
priorities and a nonzero requested quantity), each cycle walks the
transfers in descending score order, and on the spec's example (HIGH score
100 vs LOW score 20, inserted LOW-first) the HIGH transfer executes
first. -/
theorem C9_priority_score_and_ordering :
    (∀ (p : String) (prod : Product) (a r : Int),
        (p = "HIGH" ∨ p = "MEDIUM" ∨ p = "LOW") → r ≠ 0 →
        calculate_priority_score p prod a r =
          some (specPriorityScore p prod.unit_price (a : ℚ) (r : ℚ))) ∧
    (∀ l, List.Chain' (fun a b => b.2 ≤ a.2) (sortDesc l)) ∧
    (calculate_priority_score "HIGH" { unit_price := 50 } 7 7 = some 100 ∧
     calculate_priority_score "LOW" { unit_price := 150 } 4 4 = some 20 ∧
     (process_pending_transfers c9Sys "WH1").2.map
         (fun e => (e.message_type, e.content.transfer_id)) =
       [("TRANSFER_INITIATED", some "TH"), ("TRANSFER_INITIATED", some "TL")]) := by
  have e1 : calculate_priority_score "HIGH" { unit_price := 50 } 7 7 = some 100 := by
    unfold calculate_priority_score
    rw [if_neg (by decide)]
    norm_num [min_def]
  have e2 : calculate_priority_score "LOW" { unit_price := 150 } 4 4 = some 20 := by
    unfold calculate_priority_score
    rw [if_neg (by decide)]
    norm_num [min_def]
    decide
  refine ⟨?_, sortDesc_sorted, e1, e2, by rfl⟩
  intro p prod a r hp hr
  have hb : (r == 0) = false := by
    simp only [beq_eq_false_iff_ne, ne_eq]
    exact hr
  rcases hp with hp | hp | hp <;> subst hp <;>
    simp [calculate_priority_score, specPriorityScore, hb]

/-- C9 witness: the score formula instantiated at the HIGH example. -/
theorem C9_witness :
    calculate_priority_score "HIGH" { unit_price := 50 } 7 7 =
      some (specPriorityScore "HIGH" 50 (7 : ℚ) (7 : ℚ)) :=
  C9_priority_score_and_ordering.1 "HIGH" { unit_price := 50 } 7 7 (Or.inl rfl) (by decide)

/-! ### C1: non-negativity of inventory under all reachable states -/

/-- Transport of the invariant along a database equality. -/
theorem NonNegDB_eq {d1 d2 : DB} (h : d1 = d2) (hn : NonNegDB d2) : NonNegDB d1 :=
  h ▸ hn

/-- A point update with a non-negative value preserves row non-negativity. -/
theorem nonneg_setInv {inv : String → String → Option Int}
    (hn : ∀ p l q, inv p l = some q → 0 ≤ q) {p l : String} {q : Int} (hq : 0 ≤ q) :
    ∀ p' l' q', setInv inv p l q p' l' = some q' → 0 ≤ q' := by
  intro p' l' q' h
  unfold setInv at h
  split at h
  · split at h
    · exact (Option.some.inj h) ▸ hq
    · exact hn _ _ _ h
  · exact hn _ _ _ h

/-- The sale debit loop preserves non-negativity: every debit is guarded
by `inventory.quantity < quantity → rollback`. -/
theorem processSaleItems_nonneg (sid tid : String) :
    ∀ (items : List Item) (db db' : DB), NonNegDB db →
      processSaleItems db sid tid items = some db' → NonNegDB db' := by
  intro items
  induction items with
  | nil =>
    intro db db' hn h
    unfold processSaleItems at h
    exact (Option.some.inj h) ▸ hn
  | cons it rest ih =>
    intro db db' hn h
    unfold processSaleItems at h
    split at h
    · cases h
    · rename_i q hq
      split at h
      · cases h
      · rename_i hlt
        refine ih _ db' ?_ h
        intro p l q' hql
        refine nonneg_setInv hn ?_ p l q' hql
        have := hn _ _ _ hq
        omega

/-- The post-sale reorder check never writes to the database. -/
theorem check_reorder_db (sys : SysState) (sid pid f : String) :
    (check_reorder_needed sys sid pid f).1.db = sys.db := by
  unfold check_reorder_needed
  split
  · rfl
  · split
    · rfl
    · split
      · split
        · rfl
        · rfl
      · rfl

/-- Neither does the fold of reorder checks. -/
theorem checkReorderAll_db (sid : String) (fresh : ℕ → String) :
    ∀ (pids : List String) (sys : SysState),
      (checkReorderAll sid fresh sys pids).1.db = sys.db := by
  intro pids
  induction pids with
  | nil => intro sys; rfl
  | cons p ps ih =>
    intro sys
    exact (ih ((check_reorder_needed sys sid p (fresh ps.length)).1)).trans
      (check_reorder_db sys sid p (fresh ps.length))

/-- _process_sale preserves the invariant. -/
theorem process_sale_nonneg (sys : SysState) (sid tid : String) (fresh : ℕ → String)
    (hn : NonNegDB sys.db) : NonNegDB (process_sale sys sid tid fresh).1.db := by
  unfold process_sale
  split
  · exact hn
  · rename_i tx htx
    split
    · exact hn
    · rename_i db' hdb
      have h1 : NonNegDB db' := processSaleItems_nonneg sid tid tx.items sys.db db' hn hdb
      exact NonNegDB_eq (checkReorderAll_db sid fresh _ _) h1

/-- _handle_sale_request preserves the invariant. -/
theorem handle_sale_request_nonneg (sys : SysState) (sid : String) (env : Envelope)
    (fresh : ℕ → String) (hn : NonNegDB sys.db) :
    NonNegDB (handle_sale_request sys sid env fresh).1.db := by
  simp only [handle_sale_request]
  split
  · exact hn
  · split
    · exact hn
    · split
      · exact hn
      · exact process_sale_nonneg _ sid _ fresh hn

/-- The inventory-update commit preserves the invariant: the ADD path
aborts on the missing DELIVERY member before committing, and the other
paths are called with a non-negative new quantity. -/
theorem invUpdateCommit_nonneg (sys : SysState) (sid pid : String) (qty newq : Int)
    (utype reason : String) (rid tfid : Option String) (f : String)
    (hn : NonNegDB sys.db) (hok : (utype == "ADD") = true ∨ 0 ≤ newq) :
    NonNegDB (invUpdateCommit sys sid pid qty newq utype reason rid tfid f).1.db := by
  unfold invUpdateCommit
  split
  · exact hn
  · rename_i tt htt
    have h0 : 0 ≤ newq := by
      rcases hok with hA | h0
      · rw [if_pos hA] at htt
        simp [transactionTypeAttr] at htt
      · exact h0
    intro p l q h
    exact nonneg_setInv hn h0 p l q h

/-- _handle_inventory_update preserves the invariant (REMOVE clamps at 0;
ADD aborts; other update types keep the stored quantity). -/
theorem handle_inventory_update_nonneg (sys : SysState) (sid : String) (env : Envelope)
    (fresh : ℕ → String) (hn : NonNegDB sys.db) :
    NonNegDB (handle_inventory_update sys sid env fresh).1.db := by
  simp only [handle_inventory_update]
  split
  · exact hn
  · split
    · rename_i q hq
      apply invUpdateCommit_nonneg _ _ _ _ _ _ _ _ _ _ hn
      by_cases hA : (env.content.update_type.getD "ADD" == "ADD") = true
      · exact Or.inl hA
      · right
        rw [if_neg hA]
        by_cases hR : (env.content.update_type.getD "ADD" == "REMOVE") = true
        · rw [if_pos hR]
          exact le_max_left 0 _
        · rw [if_neg hR]
          exact hn _ _ _ hq
    · split
      · rename_i hA
        exact invUpdateCommit_nonneg _ _ _ _ _ _ _ _ _ _ hn (Or.inl hA)
      · exact hn

/-- A successful `OrderStatus[...]` lookup is never the string
"CANCELLED" (the member is CANCELED), so the items-back branch of
_handle_order_update is dead. -/
theorem orderStatusItem_ne_cancelled (s : String) (x : OrderStatus)
    (h : orderStatusItem s = some x) : (s == "CANCELLED") = false := by
  unfold orderStatusItem at h
  split at h
  · rename_i hc; rw [beq_iff_eq.mp hc]; rfl
  · split at h
    · rename_i hc; rw [beq_iff_eq.mp hc]; rfl
    · split at h
      · rename_i hc; rw [beq_iff_eq.mp hc]; rfl
      · split at h
        · rename_i hc; rw [beq_iff_eq.mp hc]; rfl
        · split at h
          · rename_i hc; rw [beq_iff_eq.mp hc]; rfl
          · cases h

/-- _handle_order_update preserves the invariant. -/
theorem handle_order_update_nonneg (sys : SysState) (sid : String) (env : Envelope)
    (hn : NonNegDB sys.db) : NonNegDB (handle_order_update sys sid env).1.db := by
  simp only [handle_order_update]
  split
  · exact hn
  · split
    · exact hn
    · split
      · exact hn
      · rename_i newst hosi
        have hfc := orderStatusItem_ne_cancelled _ _ hosi
        rw [hfc]
        simp only [Bool.false_and]
        rw [if_neg Bool.false_ne_true]
        intro p l q h
        exact hn p l q h

/-- _handle_transfer_failed never writes to the database. -/
theorem handle_transfer_failed_db (sys : SysState) (sid : String) (env : Envelope)
    (fresh : ℕ → String) : (handle_transfer_failed sys sid env fresh).1.db = sys.db := by
  simp only [handle_transfer_failed]
  split
  · rfl
  · split
    · rfl
    · split
      · rfl
      · rfl

/-- Store process_message preserves the invariant. -/
theorem storeProcessMessage_nonneg (sys : SysState) (sid : String) (env : Envelope)
    (fresh : ℕ → String) (hn : NonNegDB sys.db) :
    NonNegDB (storeProcessMessage sys sid env fresh).1.db := by
  unfold storeProcessMessage
  split
  · exact handle_sale_request_nonneg sys sid env fresh hn
  · split
    · exact handle_inventory_update_nonneg sys sid env fresh hn
    · split
      · exact handle_order_update_nonneg sys sid env hn
      · split
        · exact NonNegDB_eq (handle_transfer_failed_db sys sid env fresh) hn
        · exact hn

/-- _handle_inventory_request never writes to the inventory table. -/
theorem handle_inventory_request_db (sys : SysState) (wid : String) (env : Envelope)
    (fresh : ℕ → String) : (handle_inventory_request sys wid env fresh).1.db = sys.db := by
  simp only [handle_inventory_request]
  split
  · rfl
  · split
    · rfl
    · split
      · split
        · split
          · rfl
          · rfl
        · rfl
      · split
        · rfl
        · rfl
    · rfl

/-- _handle_supply_confirmation never writes to the database. -/
theorem handle_supply_confirmation_db (sys : SysState) (wid : String) (env : Envelope) :
    (handle_supply_confirmation sys wid env).1.db = sys.db := by
  simp only [handle_supply_confirmation]
  split
  · rfl
  · split
    · rfl
    · rfl

/-- _handle_transfer_status_update never writes to the database. -/
theorem handle_transfer_status_update_db (sys : SysState) (wid : String) (env : Envelope) :
    (handle_transfer_status_update sys wid env).1.db = sys.db := by
  simp only [handle_transfer_status_update]
  split
  · rfl
  · split
    · rfl
    · rfl

/-- Warehouse process_message preserves the invariant. -/
theorem whProcessMessage_nonneg (sys : SysState) (wid : String) (env : Envelope)
    (fresh : ℕ → String) (hn : NonNegDB sys.db) :
    NonNegDB (whProcessMessage sys wid env fresh).1.db := by
  unfold whProcessMessage
  split
  · exact NonNegDB_eq (handle_inventory_request_db sys wid env fresh) hn
  · split
    · exact NonNegDB_eq (handle_supply_confirmation_db sys wid env) hn
    · split
      · exact NonNegDB_eq (handle_transfer_status_update_db sys wid env) hn
      · exact hn

/-- One transfer execution preserves the invariant: the debit is guarded
by the re-validation `warehouse_inventory.quantity < quantity → FAILED`. -/
theorem executeTransfer_nonneg (sys : SysState) (wid tid : String)
    (hn : NonNegDB sys.db) : NonNegDB (executeTransfer sys wid tid).1.db := by
  simp only [executeTransfer]
  split
  · exact hn
  · rename_i t ht
    split
    · exact hn
    · split
      · exact hn
      · rename_i wq hq
        split
        · exact hn
        · rename_i hlt
          intro p l q h
          refine nonneg_setInv hn ?_ p l q h
          have := hn _ _ _ hq
          omega

/-- The transfer pass preserves the invariant. -/
theorem execTransferList_nonneg (wid : String) :
    ∀ (l : List (String × ℚ)) (sys : SysState), NonNegDB sys.db →
      NonNegDB (execTransferList wid sys l).1.db := by
  intro l
  induction l with
  | nil => intro sys hn; exact hn
  | cons x rest ih =>
    intro sys hn
    exact ih _ (executeTransfer_nonneg sys wid x.1 hn)

/-- _process_pending_transfers preserves the invariant. -/
theorem process_pending_transfers_nonneg (sys : SysState) (wid : String)
    (hn : NonNegDB sys.db) : NonNegDB (process_pending_transfers sys wid).1.db := by
  unfold process_pending_transfers
  split
  · exact hn
  · exact execTransferList_nonneg wid _ sys hn

/-- Every system step preserves the invariant. -/
theorem step_nonneg {sid wid : String} {s t : SysState} (h : Step sid wid s t)
    (hn : NonNegDB s.db) : NonNegDB t.db := by
  cases h with
  | storeMsg env fresh => exact storeProcessMessage_nonneg s sid env fresh hn
  | whMsg env fresh => exact whProcessMessage_nonneg s wid env fresh hn
  | whTransferPass => exact process_pending_transfers_nonneg s wid hn

/-- C1: from any state with non-negative inventory, every state reachable
through SALE_REQUEST / INVENTORY_UPDATE / ORDER_UPDATE / TRANSFER_FAILED
processing at the store, any warehouse message, and warehouse transfer
passes has non-negative inventory everywhere: sale and transfer debits are
rejected when stock is below the debit, REMOVE clamps at 0 (and ADD
commits nothing at all, aborting on the missing DELIVERY ledger member). -/
theorem C1_inventory_never_negative (sid wid : String) (s t : SysState)
    (hreach : Relation.ReflTransGen (Step sid wid) s t)
    (hn : NonNegDB s.db) : NonNegDB t.db := by
  induction hreach with
  | refl => exact hn
  | tail _ hstep ih => exact step_nonneg hstep ih

/-- C1 witness: a concrete two-product store state, one sale step. -/
theorem C1_witness :
    NonNegDB c3Sys.db ∧
    NonNegDB (storeProcessMessage c3Sys "S1" (saleEnv "tx1" c3Items) fresh0).1.db := by
  have h0 : NonNegDB c3Sys.db := by
    intro p l q h
    simp only [c3Sys, emptyDB] at h
    split at h
    · split at h
      · injection h with h; omega
      · split at h
        · injection h with h; omega
        · cases h
    · cases h
  refine ⟨h0, ?_⟩
  exact C1_inventory_never_negative "S1" "WH1" c3Sys _
    (Relation.ReflTransGen.single (Step.storeMsg c3Sys (saleEnv "tx1" c3Items) fresh0)) h0

end SmartStock
